import Mathlib

/-!
Shallow embedding of the mxGraph TypeScript sources (mcyph/mxgraph) used to
check the natural-language specification of the repository.

JavaScript numbers are modelled as rationals (`ℚ`), nullable values as
`Option`, and runtime exceptions (`TypeError` etc.) as an explicit error
constructor.  Browser / out-of-source dependencies (the graph model, the
view, the cell marker, the constraint handler internals, DOM measurement)
enter as oracle functions collected in environment records; every function
embedded here is translated from the corresponding TypeScript method.
-/

namespace MxGraph

/-- A JavaScript runtime exception (e.g. `TypeError: x is not a constructor`). -/
inductive JsError where
  | typeError : String → JsError
deriving Repr, DecidableEq

/-- Result of running a JS method that may throw: `thrown e a` records the
exception together with the side effects already applied when it escaped. -/
inductive JsResult (α : Type) where
  | ok : α → JsResult α
  | thrown : JsError → α → JsResult α
deriving Repr, DecidableEq

/-- `mxPoint`: a 2-D point with rational coordinates. -/
structure Point where
  x : ℚ
  y : ℚ
deriving Repr, DecidableEq

/-- `mxRectangle`: x, y, width, height. -/
structure Rect where
  x : ℚ
  y : ℚ
  width : ℚ
  height : ℚ
deriving Repr, DecidableEq

/-! ## mxUrlConverter (src/unnamed/part_002) -/

/-- State of `mxUrlConverter`: `enabled`, `baseUrl`, `baseDomain`. -/
structure UrlConverter where
  enabled : Bool
  baseUrl : Option String
  baseDomain : Option String
deriving Repr, DecidableEq

/-- The browser `location` values used by `updateBaseUrl`:
protocol, host and pathname. -/
structure JsLocation where
  protocol : String
  host : String
  pathname : String
deriving Repr, DecidableEq

/-- JavaScript `String.prototype.lastIndexOf` restricted to a single
character: index of the last occurrence, or `-1`. -/
def jsLastIndexOf (s : String) (c : Char) : Int :=
  match (s.toList.reverse.findIdx? (fun d => d = c)) with
  | some i => (s.toList.length : Int) - 1 - i
  | none => -1

/-- `mxUrlConverter.isRelativeUrl`: a URL is relative when it is non-empty
(JS truthiness) and does not start with `//`, `http://`, `https://`,
`data:image` or `file://`. -/
def UrlConverter.isRelativeUrl (url : String) : Bool :=
  url ≠ "" &&
  url.take 2 ≠ "//" &&
  url.take 7 ≠ "http://" &&
  url.take 8 ≠ "https://" &&
  url.take 10 ≠ "data:image" &&
  url.take 7 ≠ "file://"

/-- `mxUrlConverter.updateBaseUrl`: rebuild `baseDomain` and `baseUrl` from
the browser location, stripping the filename from the path. -/
def UrlConverter.updateBaseUrl (loc : JsLocation) (cv : UrlConverter) : UrlConverter :=
  let baseDomain := loc.protocol ++ "//" ++ loc.host
  let baseUrl := baseDomain ++ loc.pathname
  let tmp := jsLastIndexOf baseUrl '/'
  let baseUrl := if tmp > 0 then baseUrl.take (tmp.toNat + 1) else baseUrl
  { cv with baseDomain := some baseDomain, baseUrl := some baseUrl }

/-- JS string concatenation where the left operand may be `null`
(`null + "x" = "nullx"`). -/
def jsConcat (o : Option String) (s : String) : String :=
  (o.getD "null") ++ s

/-- `mxUrlConverter.convert`: converts relative URLs to absolute ones using
the base URL / base domain; returns every other URL unchanged. -/
def UrlConverter.convert (loc : JsLocation) (cv : UrlConverter) (url : String) :
    UrlConverter × String :=
  if cv.enabled && UrlConverter.isRelativeUrl url then
    let cv :=
      match cv.baseUrl with
      | none => UrlConverter.updateBaseUrl loc cv
      | some b => if b = "" then UrlConverter.updateBaseUrl loc cv else cv
    if url.take 1 = "/" then (cv, jsConcat cv.baseDomain url)
    else (cv, jsConcat cv.baseUrl url)
  else (cv, url)

/-! ## Geometry and cells (GraphVertex.ts, src/unnamed/part_000)

The `Geometry` class itself lives in
`src/packages/core/src/view/geometry/Geometry.ts`, which is not among the
provided sources. -/

/-- Modelled from the spec: the `Geometry` class is missing from the
provided sources; the spec's data-model section states that the only
invariant of these records is that "a geometry has non-negative
width/height", so the constructor is modelled as producing non-negative
width and height (clamping at zero). -/
structure Geometry where
  x : ℚ
  y : ℚ
  width : ℚ
  height : ℚ
  relative : Bool
deriving Repr, DecidableEq

/-- Modelled from the spec: `new Geometry(x, y, width, height)` with the
spec's non-negativity invariant on width/height. -/
def Geometry.make (x y w h : ℚ) : Geometry :=
  { x := x, y := y, width := max w 0, height := max h 0, relative := false }

/-- Modelled from the spec: `new Geometry()` (all-zero geometry). -/
def Geometry.default : Geometry :=
  Geometry.make 0 0 0 0

/-- `mxCell` as far as the creation helpers are concerned: value, geometry,
style and the vertex/edge/connectable flags. -/
structure Cell where
  id : String
  value : String
  geometry : Option Geometry
  style : Option String
  vertex : Bool
  edge : Bool
  connectable : Bool
deriving Repr, DecidableEq

/-- `GraphVertex.createVertex`: builds the geometry from the given
coordinates, marks it relative as requested, and returns a connectable
vertex cell. -/
def createVertex (id : String) (value : String) (x y width height : ℚ)
    (style : Option String) (relative : Bool) : Cell :=
  let geometry := { Geometry.make x y width height with relative := relative }
  { id := id, value := value, geometry := some geometry, style := style,
    vertex := true, edge := false, connectable := true }

/-- `GraphEdge.createEdge`: a cell with a fresh default geometry marked
relative, flagged as an edge. -/
def createEdge (id : String) (value : String) (style : Option String) : Cell :=
  let edge : Cell :=
    { id := id, value := value, geometry := some Geometry.default,
      style := style, vertex := false, edge := true, connectable := false }
  match edge.geometry with
  | some g => { edge with geometry := some { g with relative := true } }
  | none => edge

/-! ## GraphValidation (src/unnamed/part_002) -/

/-- A cell as seen by edge validation: an identity plus the two stored
terminals (`cell.getTerminal(true/false)`), given by cell identity. -/
structure VCell where
  id : Nat
  sourceTerminal : Option Nat
  targetTerminal : Option Nat
deriving Repr, DecidableEq

/-- Oracle environment for `GraphValidation.getEdgeValidationError`: the
graph-level flags and helpers it consults live outside the provided
sources (`Graph`, `Multiplicity`, the model). -/
structure VEnv where
  allowDanglingEdges : Bool
  allowLoops : Bool
  multigraph : Bool
  /-- `Multiplicity.check` for each installed multiplicity, as a function of
  (edge, source, target, sourceOut, targetIn). -/
  multiplicities : Option (List (Option VCell → VCell → VCell → Nat → Nat → Option String))
  /-- `this.isValidConnection(source, target)`. -/
  isValidConnection : Option VCell → Option VCell → Bool
  /-- `this.getModel().getEdgesBetween(source, target, true)`. -/
  edgesBetween : VCell → VCell → List VCell
  /-- `cell.getDirectedEdgeCount(outgoing, ignoredEdge)`. -/
  directedEdgeCount : VCell → Bool → Option VCell → Nat
  /-- `Resources.get(this.alreadyConnectedResource) || this.alreadyConnectedResource`. -/
  alreadyConnectedMsg : String

/-- `GraphValidation.validateEdge` hook: this implementation returns null. -/
def validateEdge (_edge : Option VCell) (_source _target : VCell) : Option String :=
  none

/-- The multiplicity loop of `getEdgeValidationError`: concatenates every
non-null `multiplicity.check` result. -/
def multiplicityErrors
    (checks : List (Option VCell → VCell → VCell → Nat → Nat → Option String))
    (edge : Option VCell) (source target : VCell) (sourceOut targetIn : Nat) : String :=
  checks.foldl
    (fun acc check =>
      match check edge source target sourceOut targetIn with
      | some err => acc ++ err
      | none => acc)
    ""

/-- `GraphValidation.getEdgeValidationError` (src/unnamed/part_002, lines
84-164): null means valid, `''` means invalid without a message, any other
string is the error message. -/
def getEdgeValidationError (env : VEnv) (edge source target : Option VCell) :
    Option String :=
  if edge.isSome && !env.allowDanglingEdges && (source.isNone || target.isNone) then
    some ""
  else if (match edge with
           | some e => e.sourceTerminal.isNone && e.targetTerminal.isNone
           | none => false) then
    none
  else if !env.allowLoops && source = target && source.isSome then
    some ""
  else if !(env.isValidConnection source target) then
    some ""
  else
    match source, target with
    | some s, some t =>
      let error :=
        if !env.multigraph then
          let tmp := env.edgesBetween s t
          if tmp.length > 1 ||
             (tmp.length = 1 && (match edge, tmp.head? with
                                 | some e, some c => c ≠ e
                                 | _, _ => true)) then
            env.alreadyConnectedMsg ++ "\n"
          else ""
        else ""
      let sourceOut := env.directedEdgeCount s true edge
      let targetIn := env.directedEdgeCount t false edge
      let error :=
        match env.multiplicities with
        | some checks => error ++ multiplicityErrors checks edge s t sourceOut targetIn
        | none => error
      let error :=
        match validateEdge edge s t with
        | some err => error ++ err
        | none => error
      if error.length > 0 then some error else none
    | _, _ => if env.allowDanglingEdges then none else some ""

/-- `GraphValidation.isEdgeValid`: checks that `getEdgeValidationError`
returns null. -/
def isEdgeValid (env : VEnv) (edge source target : Option VCell) : Bool :=
  (getEdgeValidationError env edge source target).isNone

/-! ## Effects

Observable actions of the handlers (dialogs, event firing, edge
insertion); DOM-only painting is not recorded. -/

/-- An observable side effect of a handler method. -/
inductive Effect where
  | alert : String → Effect
  | fireEvent : String → Effect
  | consumeMe : Effect
  | consumeNative : Effect
  | connectCall : Option Nat → Option Nat → Effect
  | selectCell : Effect
  | setCursor : String → Effect
  | containerCursor : String → Effect
deriving Repr, DecidableEq

/-- `GraphValidation.validationAlert`: displays the message with `alert`. -/
def validationAlert (message : String) : List Effect :=
  [Effect.alert message]

/-- Whether an effect list contains a call to `ConnectionHandler.connect`
(the only way an edge is inserted by the handler). -/
def hasConnectCall (effs : List Effect) : Bool :=
  effs.any fun e =>
    match e with
    | Effect.connectCall _ _ => true
    | _ => false

/-- Whether an effect list contains any `alert` dialog. -/
def hasAlert (effs : List Effect) : Bool :=
  effs.any fun e =>
    match e with
    | Effect.alert _ => true
    | _ => false

/-! ## TextShape bounding-box update (src/unnamed/part_001)

The `try { node.getBBox() } catch` fragment of `updateBoundingBox`. -/

/-- The `try { node.getBBox() } catch` fragment: `getBBox` is the outcome
of the browser call (an SVG bounding box, or a thrown exception such as
Firefox `NS_ERROR_FAILURE`); on an exception the old bounding box is kept
and execution continues. -/
def textShapeBBoxTry (getBBox : Except JsError Rect) (value : String)
    (old : Option Rect) : Option Rect :=
  match getBBox with
  | Except.error _ => old
  | Except.ok b =>
    if value.trim.length = 0 then none
    else if b.width = 0 && b.height = 0 then none
    else some { x := b.x, y := b.y, width := b.width, height := b.height }

/-! ## ConnectionHandler (src/packages/core/src/view/connection/ConnectionHandler.ts)

The handler's own fields become a state record; the graph, view, marker,
constraint-handler internals and DOM live behind oracle functions in
`Env`.  Connect icons (`mxImageShape`) are identified by numeric ids; their
DOM bounds are display-only and not modelled. -/

/-- The slice of `mxCellState` the handler reads: the cell identity, the
centre coordinates (`getCenterX`/`getCenterY`) and the `rotation` style. -/
structure CellState where
  id : Nat
  centerX : ℚ
  centerY : ℚ
  rotation : ℚ
deriving Repr, DecidableEq

/-- `mxConnectionConstraint`: optional fixed point, offsets, perimeter flag. -/
structure ConnectionConstraint where
  point : Option Point
  dx : ℚ
  dy : ℚ
  perimeter : Bool
deriving Repr, DecidableEq

/-- The part of the `ConstraintHandler` the connection handler reads:
`currentConstraint`, `currentFocus`, `currentPoint`. -/
structure CHState where
  currentConstraint : Option ConnectionConstraint
  currentFocus : Option CellState
  currentPoint : Option Point
deriving Repr, DecidableEq

/-- `ConstraintHandler.reset`. -/
def chReset : CHState :=
  { currentConstraint := none, currentFocus := none, currentPoint := none }

/-- The preview `Polyline` shape: point list (entries may be null when they
come from `absolutePoints`), stroke colour and width, dash flag, and a
redraw counter standing for `redraw()` calls. -/
structure PShape where
  points : List (Option Point)
  stroke : String
  strokeWidth : ℚ
  dashed : Bool
  redrawCount : Nat
deriving Repr, DecidableEq

/-- The `exitX/exitY/entryX/entryY` entries of the preview edge style. -/
structure EdgeStyle where
  exitX : Option ℚ
  exitY : Option ℚ
  entryX : Option ℚ
  entryY : Option ℚ
deriving Repr, DecidableEq

/-- The preview edge state (`this.edgeState`): absolute points (entries can
be null) and the style entries the handler writes. -/
structure EdgeState where
  absolutePoints : List (Option Point)
  style : EdgeStyle
deriving Repr, DecidableEq

/-- `InternalMouseEvent` as consumed by the handler: the consumed flag, the
graph coordinates, the modifier keys and `getState()` / `getCell()`. -/
structure MEvent where
  consumed : Bool
  graphX : ℚ
  graphY : ℚ
  altDown : Bool
  shiftDown : Bool
  state : Option CellState
  cell : Option Nat
deriving Repr, DecidableEq

/-- Second argument of a perimeter function: `getTargetPerimeterPoint`
passes the preview edge state, `getSourcePerimeterPoint` the source cell
state. -/
inductive PerimArg where
  | ofEdge : Option EdgeState → PerimArg
  | ofState : CellState → PerimArg

/-- What `updateCurrentState` writes: the validation error, the current
(target) state, the constraint-handler state and the marker's valid
state. -/
structure UCSOut where
  error : Option String
  currentState : Option CellState
  constraintHandler : CHState
  markerValidState : Option CellState

/-- The `ConnectionHandler` instance fields the embedded methods touch. -/
structure HState where
  enabled : Bool
  waypointsEnabled : Bool
  ignoreMouseDown : Bool
  movePreviewAway : Bool
  livePreview : Bool
  cursor : Option String
  first : Option Point
  previous : Option CellState
  edgeState : Option EdgeState
  error : Option String
  sourceConstraint : Option ConnectionConstraint
  shape : Option PShape
  icon : Option Nat
  icons : Option (List Nat)
  selectedIcon : Option Nat
  iconState : Option Nat
  currentState : Option CellState
  currentPoint : Option Point
  originalPoint : Option Point
  mouseDownCounter : Nat
  waypoints : Option (List Point)
  constraintHandler : CHState
  markerValidState : Option CellState
deriving Repr, DecidableEq

/-- Oracles for everything outside the provided sources: graph flags and
view metrics, grid snapping, DOM conversions, the `updateCurrentState`
marker/constraint machinery, perimeter functions, rotation trigonometry
and the view's edge-routing helpers. -/
structure Env where
  graphEnabled : Bool
  isMouseDown : Bool
  tolerance : ℚ
  gridSize : ℚ
  scale : ℚ
  trX : ℚ
  trY : ℚ
  gridEnabledEvent : MEvent → Bool
  snap : ℚ → ℚ
  ignoreTerminalEvent : MEvent → Bool
  sqrt : ℚ → ℚ
  convertPoint : MEvent → Point
  rendererShape : PShape
  applyShape : PShape → EdgeState → PShape
  updateCurrentState : HState → MEvent → Point → Except JsError UCSOut
  perimeterFunction : CellState → Option (Rect → PerimArg → Point → Bool → Option Point)
  perimeterBounds : CellState → Rect
  getRotatedPoint : Point → ℚ → ℚ → Point → Point
  cosRot : ℚ → ℚ
  sinRot : ℚ → ℚ
  createIcons : CellState → Option (List Nat)
  getConnectionConstraint : EdgeState → Option CellState → Bool → Option ConnectionConstraint
  updateFixedTerminalPoint : EdgeState → Option CellState → Bool → Option ConnectionConstraint → EdgeState
  updatePoints : EdgeState → Option (List Point) → Option CellState → Option CellState → EdgeState
  updateFloatingTerminalPoints : EdgeState → Option CellState → Option CellState → EdgeState

/-- `VALID_COLOR` (Constants.ts). -/
def validColor : String := "#00FF00"

/-- `INVALID_COLOR` (Constants.ts). -/
def invalidColor : String := "#FF0000"

/-- `CURSOR_CONNECT` (Constants.ts): cursor for a connectable state. -/
def cursorConnect : String := "pointer"

/-- `ConnectionHandler.isConnecting`: a source was clicked and a preview is
active. -/
def isConnecting (s : HState) : Bool :=
  s.first.isSome && s.shape.isSome

/-- `ConnectionHandler.isStartEvent`. -/
def isStartEvent (s : HState) : Bool :=
  (s.constraintHandler.currentFocus.isSome &&
   s.constraintHandler.currentConstraint.isSome) ||
  (s.previous.isSome && s.error.isNone && (s.icons.isNone || s.icon.isSome))

/-- `ConnectionHandler.isStopEvent`: there is a cell state in the event. -/
def isStopEvent (me : MEvent) : Bool :=
  me.state.isSome

/-- `ConnectionHandler.createEdgeState` hook: this implementation returns
null. -/
def createEdgeStateFn : Option EdgeState :=
  none

/-- `ConnectionHandler.destroyIcons`: resets the icon state when icons are
present. -/
def destroyIconsFn (s : HState) : HState :=
  if s.icons.isSome then
    { s with icons := none, icon := none, selectedIcon := none,
             iconState := none }
  else s

/-- `ConnectionHandler.createShape`: the preview polyline (the live-preview
variant comes from the cell renderer oracle). -/
def createShapeFn (env : Env) (s : HState) : PShape :=
  if s.livePreview && s.edgeState.isSome then env.rendererShape
  else
    { points := [], stroke := invalidColor, strokeWidth := 1, dashed := true,
      redrawCount := 0 }

/-- `ConnectionHandler.getEdgeColor`: green when valid, red otherwise. -/
def getEdgeColor (valid : Bool) : String :=
  if valid then validColor else invalidColor

/-- `ConnectionHandler.getEdgeWidth`: 3 when valid, 1 otherwise. -/
def getEdgeWidth (valid : Bool) : ℚ :=
  if valid then 3 else 1

/-- `ConnectionHandler.updatePreview`: stroke width and colour from the
validity flag. -/
def updatePreviewFn (valid : Bool) (sh : PShape) : PShape :=
  { sh with strokeWidth := getEdgeWidth valid, stroke := getEdgeColor valid }

/-- `ConnectionHandler.drawPreview`: `updatePreview(error == null)` followed
by `shape.redraw()`. -/
def drawPreviewFn (s : HState) (sh : PShape) : PShape :=
  let sh := updatePreviewFn s.error.isNone sh
  { sh with redrawCount := sh.redrawCount + 1 }

/-- `ConnectionHandler.reset`: destroys the preview shape and icons, resets
the marker and constraint handler, nulls the gesture fields and fires the
RESET event. -/
def resetFn (s : HState) : HState × List Effect :=
  let s := { s with shape := none }
  let cursorEffs : List Effect :=
    if s.cursor.isSome then [Effect.containerCursor ""] else []
  let s := destroyIconsFn s
  let s := { s with
    markerValidState := none,
    constraintHandler := chReset,
    originalPoint := none, currentPoint := none, edgeState := none,
    previous := none, error := none, sourceConstraint := none,
    mouseDownCounter := 0, first := none }
  (s, cursorEffs ++ [Effect.fireEvent "reset"])

/-- `ConnectionHandler.mouseDown`: increments the mouse-down counter, and on
an unconsumed start event stores the source constraint / source state /
start point, creates the (null) preview edge state and, with waypoints
enabled, the preview shape, fires START and consumes the event; finally
always moves `icon` into `selectedIcon`. -/
def mouseDownFn (env : Env) (s : HState) (me : MEvent) :
    HState × List Effect :=
  let s := { s with mouseDownCounter := s.mouseDownCounter + 1 }
  let r :=
    if s.enabled && env.graphEnabled && !me.consumed && !(isConnecting s) &&
       isStartEvent s then
      let s :=
        match s.constraintHandler.currentConstraint,
              s.constraintHandler.currentFocus,
              s.constraintHandler.currentPoint with
        | some c, some f, some p =>
          { s with sourceConstraint := some c, previous := some f,
                   first := some p }
        | _, _, _ =>
          { s with first := some { x := me.graphX, y := me.graphY } }
      let s := { s with edgeState := createEdgeStateFn, mouseDownCounter := 1 }
      let s :=
        if s.waypointsEnabled && s.shape.isNone then
          let sh := createShapeFn env s
          let sh :=
            match s.edgeState with
            | some es => env.applyShape sh es
            | none => sh
          { s with waypoints := none, shape := some sh }
        else s
      -- `previous == null && edgeState != null` would store the start point in
      -- the preview edge's geometry; `createEdgeState` returns null here
      (s, [Effect.fireEvent "start", Effect.consumeMe])
    else (s, [])
  ({ r.1 with selectedIcon := r.1.icon, icon := none }, r.2)

/-- `ConnectionHandler.convertWaypoint`: screen to model coordinates. -/
def convertWaypointFn (env : Env) (p : Point) : Point :=
  { x := p.x / env.scale - env.trX, y := p.y / env.scale - env.trY }

/-- `ConnectionHandler.snapToPreview`: without Alt and with a source state,
snap the point to the first preview point.  The reference point is
`this.first` when a source constraint exists; otherwise the source centre —
but that branch executes `new point(...)` on the `point` argument (a
`Point` instance, not the class), which throws a `TypeError`. -/
def snapToPreviewFn (env : Env) (s : HState) (me : MEvent) (point : Point) :
    Except JsError Point :=
  if !me.altDown && s.previous.isSome then
    let tol := env.gridSize * env.scale / 2
    match s.sourceConstraint with
    | none => Except.error (JsError.typeError "point is not a constructor")
    | some _ =>
      match s.first with
      | none => Except.error (JsError.typeError "tmp is null")
      | some tmp =>
        let point :=
          if |tmp.x - me.graphX| < tol then { point with x := tmp.x } else point
        let point :=
          if |tmp.y - me.graphY| < tol then { point with y := tmp.y } else point
        Except.ok point
  else Except.ok point

/-- `ConnectionHandler.getTargetPerimeterPoint`: apply the state's perimeter
function to its perimeter bounds and the next point (last waypoint, or the
source state's centre); without a perimeter function, the target centre. -/
def getTargetPerimeterPointFn (env : Env) (s : HState) (state : CellState) :
    Except JsError (Option Point) :=
  match env.perimeterFunction state with
  | some perim =>
    let nextRes : Except JsError Point :=
      match s.waypoints.bind List.getLast? with
      | some w => Except.ok w
      | none =>
        match s.previous with
        | some prev => Except.ok { x := prev.centerX, y := prev.centerY }
        | none => Except.error (JsError.typeError "previous is null")
    nextRes.map fun next =>
      perim (env.perimeterBounds state) (PerimArg.ofEdge s.edgeState) next false
  | none => Except.ok (some { x := state.centerX, y := state.centerY })

/-- `ConnectionHandler.getSourcePerimeterPoint`: rotates the next point into
the unrotated frame, applies the perimeter function, rotates back; without
a perimeter function, the source centre.  `cosRot`/`sinRot θ` stand for
`Math.cos/sin(-θ * Math.PI / 180)`. -/
def getSourcePerimeterPointFn (env : Env) (state : CellState) (next : Point) :
    Option Point :=
  let c : Point := { x := state.centerX, y := state.centerY }
  match env.perimeterFunction state with
  | some perim =>
    let theta := state.rotation
    let next :=
      if theta ≠ 0 then
        env.getRotatedPoint next (env.cosRot theta) (env.sinRot theta) c
      else next
    match perim (env.perimeterBounds state) (PerimArg.ofState state) next false with
    | some tmp =>
      some (if theta ≠ 0 then
              env.getRotatedPoint tmp (env.cosRot (-theta)) (env.sinRot (-theta)) c
            else tmp)
    | none => none
  | none => some c

/-- `mxCellState.setAbsoluteTerminalPoint(null, false)` on the absolute
point list (upstream behaviour: push for short lists, else set the last
entry). -/
def setAbsoluteTargetNone (pts : List (Option Point)) : List (Option Point) :=
  if pts.length ≤ 1 then pts ++ [none]
  else pts.set (pts.length - 1) none

/-- `ConnectionHandler.updateEdgeState`: writes the exit/entry style
entries, seeds the absolute points and delegates the terminal point and
waypoint routing to the view oracles. -/
def updateEdgeStateFn (env : Env) (s : HState) (es : EdgeState)
    (current : Point) (constraint : Option ConnectionConstraint) : EdgeState :=
  let es :=
    match s.sourceConstraint with
    | some sc =>
      match sc.point with
      | some p =>
        { es with style := { es.style with exitX := some p.x, exitY := some p.y } }
      | none => es
    | none => es
  let es :=
    match constraint with
    | some c =>
      match c.point with
      | some p =>
        { es with style := { es.style with entryX := some p.x, entryY := some p.y } }
      | none => { es with style := { es.style with entryX := none, entryY := none } }
    | none => { es with style := { es.style with entryX := none, entryY := none } }
  let es :=
    { es with absolutePoints :=
        [none, if s.currentState.isSome then none else some current] }
  let es := env.updateFixedTerminalPoint es s.previous true s.sourceConstraint
  let es :=
    match s.currentState with
    | some cs =>
      let constraint :=
        match constraint with
        | some c => some c
        | none => env.getConnectionConstraint es s.previous false
      let es := { es with absolutePoints := setAbsoluteTargetNone es.absolutePoints }
      env.updateFixedTerminalPoint es (some cs) false constraint
    | none => es
  let realPoints := s.waypoints.map fun ws => ws.map (convertWaypointFn env)
  let es := env.updatePoints es realPoints s.previous s.currentState
  env.updateFloatingTerminalPoints es s.previous s.currentState

/-- Install the fields written by `updateCurrentState`. -/
def applyUCS (u : UCSOut) (s : HState) : HState :=
  { s with error := u.error, currentState := u.currentState,
           constraintHandler := u.constraintHandler,
           markerValidState := u.markerValidState }

/-- `mouseMove`, disabled-during-highlight special case. -/
def mmDisabledCleanup (s : HState) : HState :=
  if !s.enabled && s.currentState.isSome then
    { destroyIconsFn s with currentState := none }
  else s

/-- `mouseMove`, choice of `constraint`/`current`: prefer the constraint
handler's point; otherwise with Shift snap the (aliased) point to the
source centre axis.  Returns (constraint, point, current, current aliases
point). -/
def mmSelectCurrent (env : Env) (s : HState) (me : MEvent) (point : Point) :
    Option ConnectionConstraint × Point × Point × Bool :=
  match s.constraintHandler.currentConstraint, s.constraintHandler.currentFocus,
        s.constraintHandler.currentPoint with
  | some c, some _, some p => (some c, point, p, false)
  | _, _, _ =>
    match s.previous with
    | some prev =>
      if !(env.ignoreTerminalEvent me) && me.shiftDown then
        let point :=
          if |prev.centerX - point.x| < |prev.centerY - point.y| then
            { point with x := prev.centerX }
          else { point with y := prev.centerY }
        (none, point, point, true)
      else (none, point, point, true)
    | none => (none, point, point, true)

/-- `mouseMove`, endpoint computation when there is no preview edge state:
replace `current` by the target perimeter point and `pt2` by the source
perimeter point where applicable. -/
def mmEndpointsNoEdge (env : Env) (s : HState) (first current : Point)
    (curAlias : Bool) : Except JsError (Point × Point × Bool) := do
  let cur ←
    match s.currentState with
    | some cs =>
      if s.constraintHandler.currentConstraint.isNone then
        match getTargetPerimeterPointFn env s cs with
        | Except.error e => Except.error e
        | Except.ok (some tmp) => Except.ok (tmp, false)
        | Except.ok none => Except.ok (current, curAlias)
      else Except.ok (current, curAlias)
    | none => Except.ok (current, curAlias)
  let pt2 :=
    if s.sourceConstraint.isNone then
      match s.previous with
      | some prev =>
        let next :=
          match s.waypoints.bind List.head? with
          | some w => w
          | none => cur.1
        match getSourcePerimeterPointFn env prev next with
        | some tmp => tmp
        | none => first
      | none => first
    else first
  Except.ok (pt2, cur.1, cur.2)

/-- Outcome of the move-preview-away block: early `return`, an escaped
exception, or the updated state and current point. -/
inductive MpaOut where
  | early : MpaOut
  | err : JsError → MpaOut
  | proceed : HState → Option Point → MpaOut

/-- `mouseMove`, move-preview-away block: shift the current point 4px back
along the segment towards the preview, early-returning when the segment
length is zero; otherwise clear `originalPoint`. -/
def mmMovePreview (env : Env) (s : HState) (pt2Opt currentOpt : Option Point)
    (curAlias : Bool) : MpaOut :=
  if s.currentState.isNone && s.movePreviewAway then
    let tmpOpt :=
      match s.edgeState with
      | some es =>
        if es.absolutePoints.length ≥ 2 then
          match es.absolutePoints.get? (es.absolutePoints.length - 2) with
          | some (some p) => some p
          | _ => pt2Opt
        else pt2Opt
      | none => pt2Opt
    match currentOpt, tmpOpt with
    | some cur, some tmp =>
      let dx := cur.x - tmp.x
      let dy := cur.y - tmp.y
      let len := env.sqrt (dx * dx + dy * dy)
      if len = 0 then MpaOut.early
      else
        let s := { s with originalPoint := some cur }
        let cur := { x := cur.x - dx * 4 / len, y := cur.y - dy * 4 / len : Point }
        let s := if curAlias then { s with currentPoint := some cur } else s
        MpaOut.proceed s (some cur)
    | _, _ => MpaOut.err (JsError.typeError "current or tmp is null")
  else MpaOut.proceed { s with originalPoint := none } currentOpt

/-- `mouseMove`, lazy preview-shape creation beyond the tolerance, with the
revalidating second `updateCurrentState` call. -/
def mmLazyShape (env : Env) (s : HState) (me : MEvent) (point first : Point) :
    Except JsError HState :=
  if s.shape.isNone then
    let dx := |me.graphX - first.x|
    let dy := |me.graphY - first.y|
    if dx > env.tolerance || dy > env.tolerance then
      let sh := createShapeFn env s
      let sh :=
        match s.edgeState with
        | some es => env.applyShape sh es
        | none => sh
      let s := { s with shape := some sh }
      (env.updateCurrentState s me point).map fun u => applyUCS u s
    else Except.ok s
  else Except.ok s

/-- `mouseMove`, preview update: set the shape's point list (the edge
state's absolute points, or `[pt2] ++ waypoints ++ [current]`) and redraw
it via `drawPreview`. -/
def mmUpdateShape (s : HState) (pt2Opt currentOpt : Option Point) : HState :=
  match s.shape with
  | some sh =>
    let sh :=
      match s.edgeState with
      | some es => { sh with points := es.absolutePoints }
      | none =>
        let pts := [pt2Opt] ++
          (match s.waypoints with
           | some ws => ws.map some
           | none => []) ++ [currentOpt]
        { sh with points := pts }
    { s with shape := some (drawPreviewFn s sh) }
  | none => s

/-- `mouseMove`, active-gesture branch (`this.first != null`). -/
def mmGesture (env : Env) (s : HState) (me : MEvent) (point0 : Point)
    (first : Point) : JsResult (HState × List Effect) :=
  let sel := mmSelectCurrent env s me point0
  let constraint := sel.1
  let point := sel.2.1
  let current0 := sel.2.2.1
  let curAlias := sel.2.2.2
  -- the Shift snap mutates the object already stored in `currentPoint`
  let s := { s with currentPoint := some point }
  -- `selectedIcon` repositioning only moves the icon's DOM bounds
  match (match s.edgeState with
         | some es0 =>
           let es := updateEdgeStateFn env s es0 current0 constraint
           Except.ok ({ s with edgeState := some es },
                      (es.absolutePoints.head?).getD none,
                      (es.absolutePoints.getLast?).getD none,
                      false)
         | none =>
           (mmEndpointsNoEdge env s first current0 curAlias).map fun r =>
             (s, some r.1, some r.2.1, r.2.2)) with
  | Except.error e => JsResult.thrown e (s, [])
  | Except.ok (s, pt2Opt, currentOpt, curAlias) =>
    match mmMovePreview env s pt2Opt currentOpt curAlias with
    | MpaOut.early => JsResult.ok (s, [])
    | MpaOut.err e => JsResult.thrown e (s, [])
    | MpaOut.proceed s currentOpt =>
      match mmLazyShape env s me point first with
      | Except.error e => JsResult.thrown e (s, [])
      | Except.ok s =>
        let s := mmUpdateShape s pt2Opt currentOpt
        let effs :=
          (match s.cursor with
           | some c => [Effect.containerCursor c]
           | none => []) ++ [Effect.consumeNative, Effect.consumeMe]
        JsResult.ok (s, effs)

/-- `mouseMove`, hover branches (`this.first == null`): reset the
constraint handler when disabled, refresh the connect icons / cursor when
the highlighted state changed, keep the cursor stable otherwise. -/
def mmHover (env : Env) (s : HState) : HState × List Effect :=
  if !s.enabled || !env.graphEnabled then
    ({ s with constraintHandler := chReset }, [])
  else if s.previous ≠ s.currentState && s.edgeState.isNone then
    let s := destroyIconsFn s
    let r :=
      match s.currentState with
      | some cs =>
        if s.error.isNone && s.constraintHandler.currentConstraint.isNone then
          let icons := env.createIcons cs
          let s := { s with icons := icons }
          if icons.isNone then
            (s, [Effect.setCursor cursorConnect, Effect.consumeMe])
          else (s, [])
        else (s, [])
      | none => (s, [])
    ({ r.1 with previous := r.1.currentState }, r.2)
  else if s.previous = s.currentState && s.currentState.isSome &&
          s.icons.isNone && !env.isMouseDown then
    (s, [Effect.consumeMe])
  else (s, [])

/-- `ConnectionHandler.mouseMove` (lines 1241-1482).  The trailing
icon-hit-test block calls the empty `updateIcons` hook and changes no
modelled state. -/
def mouseMoveFn (env : Env) (s : HState) (me : MEvent) :
    JsResult (HState × List Effect) :=
  if !me.consumed && (s.ignoreMouseDown || s.first.isSome || !env.isMouseDown) then
    let s := mmDisabledCleanup s
    let point : Point := { x := me.graphX, y := me.graphY }
    let s := { s with error := none }
    if env.gridEnabledEvent me then
      -- `point = new point(...)`: `point` is a Point instance, not the class
      JsResult.thrown (JsError.typeError "point is not a constructor") (s, [])
    else
      match snapToPreviewFn env s me point with
      | Except.error e => JsResult.thrown e (s, [])
      | Except.ok point =>
        let s := { s with currentPoint := some point }
        let needUpdate :=
          (s.first.isSome || (s.enabled && env.graphEnabled)) &&
          (s.shape.isSome ||
           match s.first with
           | none => true
           | some f =>
             |me.graphX - f.x| > env.tolerance ||
             |me.graphY - f.y| > env.tolerance)
        match (if needUpdate then
                 (env.updateCurrentState s me point).map fun u => applyUCS u s
               else Except.ok s) with
        | Except.error e => JsResult.thrown e (s, [])
        | Except.ok s =>
          match s.first with
          | some first => mmGesture env s me point first
          | none => JsResult.ok (mmHover env s)
  else
    JsResult.ok ({ s with constraintHandler := chReset }, [])

/-- `ConnectionHandler.checkConstraints`: valid unless both constraints
point to the same fixed connection point. -/
def checkConstraints (c1 c2 : Option ConnectionConstraint) : Bool :=
  match c1, c2 with
  | none, _ => true
  | _, none => true
  | some a, some b =>
    match a.point, b.point with
    | none, _ => true
    | _, none => true
    | some p, some q =>
      p ≠ q || a.dx ≠ b.dx || a.dy ≠ b.dy || a.perimeter ≠ b.perimeter

/-- `ConnectionHandler.addWaypointForEvent`: decides whether to record a
waypoint; the recording itself executes `new point(...)` on the local
`point` variable (a `Point` instance), which throws a `TypeError`. -/
def addWaypointForEventFn (env : Env) (s : HState) (me : MEvent) :
    JsResult HState :=
  let point := env.convertPoint me
  match s.first with
  | none => JsResult.thrown (JsError.typeError "first is null") s
  | some first =>
    let dx := |point.x - first.x|
    let dy := |point.y - first.y|
    let addPoint := s.waypoints.isSome ||
      (s.mouseDownCounter > 1 && (dx > env.tolerance || dy > env.tolerance))
    if addPoint then
      let s := if s.waypoints.isNone then { s with waypoints := some [] } else s
      JsResult.thrown (JsError.typeError "point is not a constructor") s
    else JsResult.ok s

/-- `ConnectionHandler.mouseUp` (lines 1727-1787): record a waypoint and
return when waypoints are enabled and the event is no stop event; otherwise
insert the edge via `connect` when there is no validation error and the
constraints differ, or show the non-empty validation error; finally reset
whenever a gesture was active. -/
def mouseUpFn (env : Env) (s : HState) (me : MEvent) :
    JsResult (HState × List Effect) :=
  if !me.consumed && isConnecting s then
    if s.waypointsEnabled && !(isStopEvent me) then
      match addWaypointForEventFn env s me with
      | JsResult.thrown e s' => JsResult.thrown e (s', [])
      | JsResult.ok s' => JsResult.ok (s', [Effect.consumeMe])
    else
      let c1 := s.sourceConstraint
      let c2 := s.constraintHandler.currentConstraint
      let source := s.previous.map CellState.id
      let target :=
        if s.constraintHandler.currentConstraint.isSome &&
           s.constraintHandler.currentFocus.isSome then
          s.constraintHandler.currentFocus.map CellState.id
        else none
      let target :=
        if target.isNone && s.currentState.isSome then
          s.currentState.map CellState.id
        else target
      let effs :=
        if s.error.isNone &&
           (source.isNone || target.isNone || source ≠ target ||
            checkConstraints c1 c2) then
          [Effect.connectCall source target]
        else
          (if s.previous.isSome && s.markerValidState.isSome &&
              s.previous.map CellState.id = s.markerValidState.map CellState.id then
             [Effect.selectCell]
           else []) ++
          (match s.error with
           | some err => if err.length > 0 then validationAlert err else []
           | none => [])
      let s := destroyIconsFn s
      let effs := effs ++ [Effect.consumeMe]
      if s.first.isSome then
        let r := resetFn s
        JsResult.ok (r.1, effs ++ r.2)
      else JsResult.ok (s, effs)
  else
    if s.first.isSome then JsResult.ok (resetFn s)
    else JsResult.ok (s, [])

/-! ## Concrete instances used by witnesses and counterexamples -/

/-- A default oracle environment: unit scale, no translation, no grid, no
perimeter functions, an `updateCurrentState` that finds nothing. -/
def envDefault : Env :=
  { graphEnabled := true, isMouseDown := false, tolerance := 4, gridSize := 10,
    scale := 1, trX := 0, trY := 0,
    gridEnabledEvent := fun _ => false, snap := fun q => q,
    ignoreTerminalEvent := fun _ => false, sqrt := fun _ => 0,
    convertPoint := fun me => { x := me.graphX, y := me.graphY },
    rendererShape :=
      { points := [], stroke := invalidColor, strokeWidth := 1, dashed := true,
        redrawCount := 0 },
    applyShape := fun sh _ => sh,
    updateCurrentState := fun _ _ _ =>
      Except.ok
        { error := none, currentState := none, constraintHandler := chReset,
          markerValidState := none },
    perimeterFunction := fun _ => none,
    perimeterBounds := fun _ => { x := 0, y := 0, width := 0, height := 0 },
    getRotatedPoint := fun p _ _ _ => p,
    cosRot := fun _ => 1, sinRot := fun _ => 0,
    createIcons := fun _ => none,
    getConnectionConstraint := fun _ _ _ => none,
    updateFixedTerminalPoint := fun es _ _ _ => es,
    updatePoints := fun es _ _ _ => es,
    updateFloatingTerminalPoints := fun es _ _ => es }

/-- The same environment with grid snapping enabled for every event. -/
def envGrid : Env :=
  { envDefault with gridEnabledEvent := fun _ => true }

/-- A freshly constructed handler state (the field defaults of
`ConnectionHandler`). -/
def hInit : HState :=
  { enabled := true, waypointsEnabled := false, ignoreMouseDown := false,
    movePreviewAway := false, livePreview := false, cursor := none,
    first := none, previous := none, edgeState := none, error := none,
    sourceConstraint := none, shape := none, icon := none, icons := none,
    selectedIcon := none, iconState := none, currentState := none,
    currentPoint := none, originalPoint := none, mouseDownCounter := 0,
    waypoints := none, constraintHandler := chReset, markerValidState := none }

/-- A sample cell state. -/
def cs0 : CellState :=
  { id := 1, centerX := 50, centerY := 60, rotation := 0 }

/-- A sample connection constraint. -/
def cc0 : ConnectionConstraint :=
  { point := some { x := 0, y := 0 }, dx := 0, dy := 0, perimeter := true }

/-- A fresh preview polyline. -/
def shape0 : PShape :=
  { points := [], stroke := invalidColor, strokeWidth := 1, dashed := true,
    redrawCount := 0 }

/-- An already-consumed mouse event. -/
def meConsumed : MEvent :=
  { consumed := true, graphX := 1, graphY := 2, altDown := false,
    shiftDown := false, state := none, cell := none }

/-- An unconsumed mouse event over empty space. -/
def meUp : MEvent :=
  { consumed := false, graphX := 3, graphY := 4, altDown := false,
    shiftDown := false, state := none, cell := none }

/-- A bare validation cell with no stored terminals. -/
def vcellBare : VCell := { id := 0, sourceTerminal := none, targetTerminal := none }

/-- A validation environment with dangling edges disallowed and permissive
oracles. -/
def vEnv0 : VEnv :=
  { allowDanglingEdges := false, allowLoops := false, multigraph := false,
    multiplicities := none, isValidConnection := fun _ _ => true,
    edgesBetween := fun _ _ => [], directedEdgeCount := fun _ _ _ => 0,
    alreadyConnectedMsg := "alreadyConnected" }

/-- The same validation environment with dangling edges allowed. -/
def vEnv1 : VEnv :=
  { vEnv0 with allowDanglingEdges := true }

/-! ## Theorems for the claims -/

/-- C10: `mxUrlConverter.convert` is the identity on every URL for which
`isRelativeUrl` is falsy, and on every URL whatsoever when the converter is
disabled. -/
theorem urlConverter_nonrelative_identity (loc : JsLocation) (cv : UrlConverter)
    (url : String)
    (h : cv.enabled = false ∨ UrlConverter.isRelativeUrl url = false) :
    (UrlConverter.convert loc cv url).2 = url := by
  rcases h with h | h <;> simp [UrlConverter.convert, h]

/-- C10 witness: a disabled converter and an absolute URL, both returned
unchanged. -/
theorem urlConverter_nonrelative_identity_witness :
    (UrlConverter.convert { protocol := "https:", host := "h", pathname := "/p" }
      { enabled := false, baseUrl := none, baseDomain := none } "a/b").2 = "a/b" ∧
    (UrlConverter.convert { protocol := "https:", host := "h", pathname := "/p" }
      { enabled := true, baseUrl := none, baseDomain := none }
      "https://x.test/img.png").2 = "https://x.test/img.png" :=
  ⟨urlConverter_nonrelative_identity _ _ _ (Or.inl rfl),
   urlConverter_nonrelative_identity _ _ _ (Or.inr (by decide))⟩

/-- C2: the geometry of a vertex built by `GraphVertex.createVertex` and the
geometry of an edge built by `GraphEdge.createEdge` have non-negative width
and height (Geometry modelled from the spec's invariant). -/
theorem createVertex_createEdge_geometry_nonneg (id value : String)
    (x y w h : ℚ) (style : Option String) (relative : Bool) :
    (∃ g, (createVertex id value x y w h style relative).geometry = some g ∧
       0 ≤ g.width ∧ 0 ≤ g.height) ∧
    (∃ g, (createEdge id value style).geometry = some g ∧
       0 ≤ g.width ∧ 0 ≤ g.height) := by
  constructor
  · refine ⟨_, rfl, ?_, ?_⟩ <;> simp [Geometry.make]
  · refine ⟨_, rfl, ?_, ?_⟩ <;> simp [Geometry.default, Geometry.make]

/-- C8 counterexample: with dangling edges disallowed, an edge whose stored
terminals are both null is still reported as invalid (`''`), not valid
(`null`), when the source argument is null. -/
theorem edgeValidationError_bare_counterexample :
    getEdgeValidationError vEnv0 (some vcellBare) none none = some "" ∧
    getEdgeValidationError vEnv0 (some vcellBare) none none ≠ none := by
  constructor
  · rfl
  · simp [getEdgeValidationError, vEnv0, vcellBare]

/-- C8 (amended): with dangling edges disallowed a null source or target
argument yields `''`; an edge with both stored terminals null yields `null`
provided dangling edges are allowed or both arguments are non-null; and
`isEdgeValid` holds exactly when `getEdgeValidationError` is null. -/
theorem edgeValidationError_spec (env : VEnv) (edge : VCell)
    (source target : Option VCell) :
    (env.allowDanglingEdges = false → source = none ∨ target = none →
      getEdgeValidationError env (some edge) source target = some "") ∧
    (edge.sourceTerminal = none → edge.targetTerminal = none →
      (env.allowDanglingEdges = true ∨ (source.isSome ∧ target.isSome)) →
      getEdgeValidationError env (some edge) source target = none) ∧
    (∀ e : Option VCell,
      isEdgeValid env e source target = true ↔
      getEdgeValidationError env e source target = none) := by
  refine ⟨fun h1 h2 => ?_, fun h1 h2 h3 => ?_, fun e => ?_⟩
  · rcases h2 with h2 | h2 <;> simp [getEdgeValidationError, h1, h2]
  · rcases h3 with h3 | ⟨hs, ht⟩
    · simp [getEdgeValidationError, h1, h2, h3]
    · obtain ⟨sv, rfl⟩ := Option.isSome_iff_exists.mp hs
      obtain ⟨tv, rfl⟩ := Option.isSome_iff_exists.mp ht
      simp [getEdgeValidationError, h1, h2]
  · simp [isEdgeValid, Option.isNone_iff_eq_none]

/-- C8 witness: concrete instances of the two amended implications. -/
theorem edgeValidationError_spec_witness :
    getEdgeValidationError vEnv0 (some vcellBare) none none = some "" ∧
    getEdgeValidationError vEnv1 (some vcellBare) none none = none :=
  ⟨(edgeValidationError_spec vEnv0 vcellBare none none).1 rfl (Or.inl rfl),
   (edgeValidationError_spec vEnv1 vcellBare none none).2.1 rfl rfl (Or.inl rfl)⟩

/-- C6: `getTargetPerimeterPoint` applies the state's perimeter function to
its perimeter bounds and the next point — the last waypoint when waypoints
exist, otherwise the centre of the source state — and returns the target's
centre point when there is no perimeter function. -/
theorem targetPerimeterPoint_spec (env : Env) (s : HState) (state : CellState) :
    (∀ f, env.perimeterFunction state = some f →
      (∀ w, s.waypoints.bind List.getLast? = some w →
        getTargetPerimeterPointFn env s state =
          Except.ok (f (env.perimeterBounds state) (PerimArg.ofEdge s.edgeState)
            w false)) ∧
      (∀ prev, s.waypoints.bind List.getLast? = none → s.previous = some prev →
        getTargetPerimeterPointFn env s state =
          Except.ok (f (env.perimeterBounds state) (PerimArg.ofEdge s.edgeState)
            { x := prev.centerX, y := prev.centerY } false))) ∧
    (env.perimeterFunction state = none →
      getTargetPerimeterPointFn env s state =
        Except.ok (some { x := state.centerX, y := state.centerY })) := by
  refine ⟨fun f hf => ⟨fun w hw => ?_, fun prev hw hp => ?_⟩, fun hn => ?_⟩
  · simp [getTargetPerimeterPointFn, hf, hw, Except.map]
  · simp [getTargetPerimeterPointFn, hf, hw, hp, Except.map]
  · simp [getTargetPerimeterPointFn, hn]

/-- C6 witness: a state with no perimeter function yields its centre. -/
theorem targetPerimeterPoint_spec_witness :
    getTargetPerimeterPointFn envDefault hInit cs0 =
      Except.ok (some { x := 50, y := 60 }) :=
  (targetPerimeterPoint_spec envDefault hInit cs0).2 rfl

/-- C4: with grid snapping enabled, `mouseMove` does not store a snapped
point in `currentPoint` — it throws a `TypeError` (`point = new point(...)`
invokes the local `Point` instance as a constructor) and leaves the state
unchanged. -/
theorem mouseMove_grid_throws :
    mouseMoveFn envGrid hInit meUp =
      JsResult.thrown (JsError.typeError "point is not a constructor")
        (hInit, []) ∧
    hInit.currentPoint = none := by
  exact ⟨rfl, rfl⟩

/-- A hover state with a highlighted source and an active first point. -/
def hPrev : HState :=
  { hInit with previous := some cs0, first := some { x := 0, y := 0 } }

/-- C7: without Alt and with a source present, `snapToPreview` throws a
`TypeError` in the no-source-constraint case (`new point(...)` on the
`point` argument) instead of snapping to the source centre; with a source
constraint it snaps both coordinates to `first` within the tolerance. -/
theorem snapToPreview_throws :
    snapToPreviewFn envDefault hPrev meUp { x := 3, y := 4 } =
      Except.error (JsError.typeError "point is not a constructor") ∧
    snapToPreviewFn envDefault { hPrev with sourceConstraint := some cc0 } meUp
        { x := 3, y := 4 } =
      Except.ok { x := 0, y := 0 } := by
  constructor
  · rfl
  · norm_num [snapToPreviewFn, hPrev, hInit, envDefault, meUp, cc0]

/-- Whether a JS call returned normally. -/
def jsOk {α : Type} : JsResult α → Bool
  | JsResult.ok _ => true
  | JsResult.thrown _ _ => false

/-- The handler state carried by a `mouseUp`/`mouseMove` result. -/
def jsState : JsResult (HState × List Effect) → HState
  | JsResult.ok (s, _) => s
  | JsResult.thrown _ (s, _) => s

/-- The effects carried by a `mouseUp`/`mouseMove` result. -/
def jsEffects : JsResult (HState × List Effect) → List Effect
  | JsResult.ok (_, effs) => effs
  | JsResult.thrown _ (_, effs) => effs

/-- The reset state of the handler: the gesture fields are all null and the
mouse-down counter is zero. -/
def isResetLike (s : HState) : Prop :=
  s.shape = none ∧ s.originalPoint = none ∧ s.currentPoint = none ∧
  s.edgeState = none ∧ s.previous = none ∧ s.error = none ∧
  s.sourceConstraint = none ∧ s.first = none ∧ s.mouseDownCounter = 0

theorem resetFn_resetLike (s : HState) :
    isResetLike (resetFn s).1 ∧ isConnecting (resetFn s).1 = false := by
  cases hc : s.cursor <;> cases hi : s.icons <;>
    simp [resetFn, destroyIconsFn, isResetLike, isConnecting, hi, hc]

theorem string_ne_empty_length_pos (s : String) (h : s ≠ "") :
    s.length > 0 := by
  cases s with
  | mk data =>
    cases data with
    | nil => exact absurd rfl h
    | cons c cs => simp [String.length]

theorem destroyIconsFn_first (s : HState) :
    (destroyIconsFn s).first = s.first := by
  unfold destroyIconsFn
  split <;> rfl

/-- A handler state carrying a connect icon. -/
def hIcon : HState := { hInit with icon := some 7 }

/-- C1 counterexample: for a consumed mouse-down event the handler's fields
do change — `mouseDownCounter` is incremented and the icon is moved into
`selectedIcon`. -/
theorem consumed_mouseDown_changes_state :
    (mouseDownFn envDefault hIcon meConsumed).1.mouseDownCounter ≠
      hIcon.mouseDownCounter ∧
    (mouseDownFn envDefault hIcon meConsumed).1.selectedIcon ≠
      hIcon.selectedIcon ∧
    (mouseDownFn envDefault hIcon meConsumed).1.icon ≠ hIcon.icon := by
  refine ⟨?_, ?_, ?_⟩ <;> simp [mouseDownFn, hIcon, hInit, meConsumed]

/-- C1 (amended): consumed events start, update and complete no connection:
`mouseMove` leaves every handler field unchanged (resetting only the
constraint handler); `mouseDown` leaves the gesture fields unchanged but
still increments `mouseDownCounter` and moves `icon` into `selectedIcon`;
`mouseUp` resets the handler when a gesture was active (`first != null`)
and leaves the state unchanged otherwise. -/
theorem consumed_events_ignored (env : Env) (s : HState) (me : MEvent)
    (h : me.consumed = true) :
    mouseMoveFn env s me =
      JsResult.ok ({ s with constraintHandler := chReset }, []) ∧
    mouseDownFn env s me =
      ({ s with mouseDownCounter := s.mouseDownCounter + 1,
                selectedIcon := s.icon, icon := none }, []) ∧
    mouseUpFn env s me =
      (if s.first.isSome then JsResult.ok (resetFn s)
       else JsResult.ok (s, [])) := by
  refine ⟨?_, ?_, ?_⟩
  · simp [mouseMoveFn, h]
  · simp [mouseDownFn, h]
  · simp [mouseUpFn, h]

/-- C1 witness: the amended statement at a concrete consumed event. -/
theorem consumed_events_ignored_witness :
    mouseMoveFn envDefault hIcon meConsumed =
      JsResult.ok ({ hIcon with constraintHandler := chReset }, []) :=
  (consumed_events_ignored envDefault hIcon meConsumed rfl).1

/-- A connecting state with waypoints enabled. -/
def hWp : HState :=
  { hInit with
    first := some { x := 0, y := 0 }, shape := some shape0,
    waypointsEnabled := true, mouseDownCounter := 1 }

/-- C9 counterexample: a `mouseUp` that begins with `first != null` but hits
the waypoint branch (waypoints enabled, no stop event) returns early with
the gesture fields intact — the handler is *not* reset. -/
theorem mouseUp_waypoint_no_reset :
    mouseUpFn envDefault hWp meUp = JsResult.ok (hWp, [Effect.consumeMe]) ∧
    hWp.first ≠ none := by
  constructor
  · rfl
  · simp [hWp, hInit]

/-- `addWaypointForEvent` never changes `first`, whether it returns
normally or throws. -/
theorem addWaypointForEventFn_first (env : Env) (s : HState) (me : MEvent) :
    (match addWaypointForEventFn env s me with
     | JsResult.ok t => t.first
     | JsResult.thrown _ t => t.first) = s.first := by
  unfold addWaypointForEventFn
  cases hf : s.first
  · exact hf
  · dsimp only
    split
    · rename_i t heq
      split at heq
      · cases heq
      · cases heq
        exact hf
    · rename_i e t heq
      split at heq
      · cases heq
        split
        · rfl
        · exact hf
      · cases heq

/-- C9 (amended): `reset` nulls shape, originalPoint, currentPoint,
edgeState, previous, error, sourceConstraint and first and zeroes
`mouseDownCounter` (so `isConnecting` is false); and every `mouseUp`
beginning with `first != null` ends in this reset state — except when the
event is unconsumed, the handler is connecting, waypoints are enabled and
the event is no stop event: then `mouseUp` returns early from the waypoint
branch and leaves `first` unchanged, so the handler stays un-reset. -/
theorem reset_and_mouseUp_reset (env : Env) (s : HState) (me : MEvent) :
    (isResetLike (resetFn s).1 ∧ isConnecting (resetFn s).1 = false) ∧
    (s.first.isSome = true →
     ¬(me.consumed = false ∧ isConnecting s = true ∧
        s.waypointsEnabled = true ∧ isStopEvent me = false) →
     jsOk (mouseUpFn env s me) = true ∧
     isResetLike (jsState (mouseUpFn env s me)) ∧
     isConnecting (jsState (mouseUpFn env s me)) = false) ∧
    (me.consumed = false → isConnecting s = true → s.waypointsEnabled = true →
     isStopEvent me = false →
     (jsState (mouseUpFn env s me)).first = s.first) := by
  refine ⟨resetFn_resetLike s, fun h1 h2 => ?_, fun k1 k2 k3 k4 => ?_⟩
  · by_cases hcons : me.consumed
    · have heq : mouseUpFn env s me = JsResult.ok (resetFn s) := by
        simp [mouseUpFn, hcons, h1]
      rw [heq]
      exact ⟨rfl, (resetFn_resetLike s).1, (resetFn_resetLike s).2⟩
    · have hcons' : me.consumed = false := by simpa using hcons
      by_cases hconn : isConnecting s = true
      · have hwp : (s.waypointsEnabled && !(isStopEvent me)) = false := by
          by_cases hw : s.waypointsEnabled = true
          · by_cases hst : isStopEvent me = true
            · simp [hw, hst]
            · exact absurd ⟨hcons', hconn, hw, by simpa using hst⟩ h2
          · have hw' : s.waypointsEnabled = false := by simpa using hw
            simp [hw']
        have hfirst : (destroyIconsFn s).first.isSome = true := by
          rw [destroyIconsFn_first]; exact h1
        have hres := resetFn_resetLike (destroyIconsFn s)
        simp only [mouseUpFn, hcons', hconn, hwp, hfirst, Bool.not_false,
          Bool.true_and, Bool.and_self, if_true, if_false,
          Bool.false_eq_true, ite_true, ite_false]
        simp [jsOk, jsState]
        exact ⟨hres.1, hres.2⟩
      · have heq : mouseUpFn env s me = JsResult.ok (resetFn s) := by
          simp [mouseUpFn, hcons', hconn, h1]
        rw [heq]
        exact ⟨rfl, (resetFn_resetLike s).1, (resetFn_resetLike s).2⟩
  · have hwb : (s.waypointsEnabled && !(isStopEvent me)) = true := by
      simp [k3, k4]
    have haw := addWaypointForEventFn_first env s me
    simp only [mouseUpFn, k1, k2, hwb, Bool.not_false, Bool.true_and,
      if_true, ite_true]
    cases hr : addWaypointForEventFn env s me with
    | ok t =>
      rw [hr] at haw
      simpa [jsState] using haw
    | thrown e t =>
      rw [hr] at haw
      simpa [jsState] using haw

/-- C9 witness: the amended `mouseUp` statement at a concrete consumed
event with an active first point, and the waypoint carve-out at a concrete
waypoints-enabled gesture. -/
theorem reset_and_mouseUp_reset_witness :
    (jsOk (mouseUpFn envDefault hPrev meConsumed) = true ∧
     isResetLike (jsState (mouseUpFn envDefault hPrev meConsumed)) ∧
     isConnecting (jsState (mouseUpFn envDefault hPrev meConsumed)) =
       false) ∧
    (jsState (mouseUpFn envDefault hWp meUp)).first = hWp.first :=
  ⟨(reset_and_mouseUp_reset envDefault hPrev meConsumed).2.1 (by decide)
     (by decide),
   (reset_and_mouseUp_reset envDefault hWp meUp).2.2 rfl rfl rfl rfl⟩

/-- C3: validation errors are reported via alert dialogs and best-effort
try/catch: `validationAlert` raises exactly one alert dialog; a
connection-gesture `mouseUp` whose stored validation error is non-null
inserts no edge, alerting the error exactly when it is non-empty; and the
TextShape bounding-box update swallows a thrown `getBBox` and continues. -/
theorem validation_error_reporting :
    (∀ m, validationAlert m = [Effect.alert m]) ∧
    (∀ (env : Env) (s : HState) (me : MEvent) (err : String),
      me.consumed = false → isConnecting s = true →
      s.waypointsEnabled = false → s.error = some err →
      jsOk (mouseUpFn env s me) = true ∧
      hasConnectCall (jsEffects (mouseUpFn env s me)) = false ∧
      (err ≠ "" → Effect.alert err ∈ jsEffects (mouseUpFn env s me)) ∧
      (err = "" → hasAlert (jsEffects (mouseUpFn env s me)) = false)) ∧
    (∀ (e : JsError) (v : String) (old : Option Rect),
      textShapeBBoxTry (Except.error e) v old = old) := by
  refine ⟨fun m => rfl, fun env s me err hcons hconn hwp herr => ?_,
    fun e v old => rfl⟩
  have hpair : s.first.isSome = true ∧ s.shape.isSome = true := by
    simpa [isConnecting] using hconn
  have hfirst : (destroyIconsFn s).first.isSome = true := by
    rw [destroyIconsFn_first]
    exact hpair.1
  simp only [mouseUpFn, hcons, hconn, hwp, herr, hfirst, Bool.not_false,
    Bool.true_and, Bool.false_and, Bool.and_true, Option.isNone_some,
    Bool.false_eq_true, if_false, if_true, ite_true, ite_false]
  simp only [jsOk, jsState, jsEffects]
  refine ⟨trivial, ?_, ?_, ?_⟩
  · split_ifs <;>
      simp_all [hasConnectCall, validationAlert, resetFn, destroyIconsFn]
  · intro hne
    have hlen : err.length > 0 := string_ne_empty_length_pos err hne
    split_ifs <;> simp_all [validationAlert]
  · intro he
    subst he
    split_ifs <;>
      simp_all [hasAlert, validationAlert, resetFn, destroyIconsFn]

/-- A connecting state with a stored validation error. -/
def hErr : HState :=
  { hInit with
    first := some { x := 0, y := 0 }, shape := some shape0,
    error := some "bad" }

/-- C3 witness: the `mouseUp` clause at a concrete erroneous gesture. -/
theorem validation_error_reporting_witness :
    Effect.alert "bad" ∈ jsEffects (mouseUpFn envDefault hErr meUp) :=
  (validation_error_reporting.2.1 envDefault hErr meUp "bad" rfl rfl rfl
    rfl).2.2.1 (by decide)

/-- An active gesture: first point, preview shape, source state and source
constraint present, no edge state. -/
def hGest : HState :=
  { hInit with
    first := some { x := 0, y := 0 }, shape := some shape0,
    previous := some cs0, sourceConstraint := some cc0 }

/-- C5 counterexample: a non-consumed mouse move during an active gesture
with a preview shape and no edge state, but with grid snapping enabled:
`mouseMove` throws before reaching the preview update, so the shape's point
list is not set and nothing is redrawn. -/
theorem mouseMove_preview_counterexample :
    mouseMoveFn envGrid hGest meUp =
      JsResult.thrown (JsError.typeError "point is not a constructor")
        (hGest, []) ∧
    shape0.points = [] ∧ shape0.redrawCount = 0 :=
  ⟨rfl, rfl, rfl⟩

/-- The 4-pixel move-preview-away adjustment of the current point
(ConnectionHandler.ts:1385-1390), applied when the segment length is
non-zero. -/
def mpaShift (env : Env) (p2 cur : Point) : Point :=
  let dx := cur.x - p2.x
  let dy := cur.y - p2.y
  let len := env.sqrt (dx * dx + dy * dy)
  { x := cur.x - dx * 4 / len, y := cur.y - dy * 4 / len }

/-- `mmDisabledCleanup` only touches the icon fields and `currentState`. -/
theorem mmDisabledCleanup_fields (s : HState) :
    (mmDisabledCleanup s).previous = s.previous ∧
    (mmDisabledCleanup s).sourceConstraint = s.sourceConstraint ∧
    (mmDisabledCleanup s).first = s.first ∧
    (mmDisabledCleanup s).waypoints = s.waypoints ∧
    (mmDisabledCleanup s).edgeState = s.edgeState ∧
    (mmDisabledCleanup s).shape = s.shape ∧
    (mmDisabledCleanup s).constraintHandler = s.constraintHandler ∧
    (mmDisabledCleanup s).movePreviewAway = s.movePreviewAway ∧
    (mmDisabledCleanup s).ignoreMouseDown = s.ignoreMouseDown ∧
    (mmDisabledCleanup s).enabled = s.enabled := by
  unfold mmDisabledCleanup destroyIconsFn
  split
  · split <;> simp
  · simp

/-- `snapToPreview` reads only `previous`, `sourceConstraint` and `first`. -/
theorem snapToPreviewFn_congr (env : Env) (s t : HState) (me : MEvent)
    (p : Point) (h1 : t.previous = s.previous)
    (h2 : t.sourceConstraint = s.sourceConstraint)
    (h3 : t.first = s.first) :
    snapToPreviewFn env t me p = snapToPreviewFn env s me p := by
  unfold snapToPreviewFn
  rw [h1, h2, h3]

/-- `mmSelectCurrent` reads only `constraintHandler` and `previous`. -/
theorem mmSelectCurrent_congr (env : Env) (s t : HState) (me : MEvent)
    (p : Point) (h1 : t.constraintHandler = s.constraintHandler)
    (h2 : t.previous = s.previous) :
    mmSelectCurrent env t me p = mmSelectCurrent env s me p := by
  unfold mmSelectCurrent
  rw [h1, h2]

/-- `getTargetPerimeterPoint` reads only `waypoints`, `previous` and
`edgeState` from the handler state. -/
theorem getTargetPerimeterPointFn_congr (env : Env) (s t : HState)
    (cs : CellState) (h1 : t.waypoints = s.waypoints)
    (h2 : t.previous = s.previous) (h3 : t.edgeState = s.edgeState) :
    getTargetPerimeterPointFn env t cs = getTargetPerimeterPointFn env s cs := by
  unfold getTargetPerimeterPointFn
  rw [h1, h2, h3]

/-- `mmEndpointsNoEdge` reads only `currentState`, `constraintHandler`,
`waypoints`, `previous`, `edgeState` and `sourceConstraint`. -/
theorem mmEndpointsNoEdge_congr (env : Env) (s t : HState) (f c : Point)
    (a : Bool) (h1 : t.currentState = s.currentState)
    (h2 : t.constraintHandler = s.constraintHandler)
    (h3 : t.waypoints = s.waypoints) (h4 : t.previous = s.previous)
    (h5 : t.edgeState = s.edgeState)
    (h6 : t.sourceConstraint = s.sourceConstraint) :
    mmEndpointsNoEdge env t f c a = mmEndpointsNoEdge env s f c a := by
  unfold mmEndpointsNoEdge getTargetPerimeterPointFn
  simp only [h1, h2, h3, h4, h5, h6]

/-- The gesture branch of `mouseMove` without an edge state: whenever the
endpoint computation returns `(pt2, current)` and the move-preview-away
zero-length early return does not trigger, the preview shape's point list
becomes `[pt2] ++ waypoints ++ [current]` (current carrying the 4px
move-preview-away adjustment when that block is active) and the shape is
redrawn via `drawPreview`. -/
theorem mmGesture_noEdge_spec (env : Env) (sA : HState) (me : MEvent)
    (p1 f : Point) (sh : PShape) (p2 cur : Point) (al : Bool)
    (hshape : sA.shape = some sh)
    (hedge : sA.edgeState = none)
    (hend : mmEndpointsNoEdge env
        { sA with currentPoint := some (mmSelectCurrent env sA me p1).2.1 } f
        (mmSelectCurrent env sA me p1).2.2.1
        (mmSelectCurrent env sA me p1).2.2.2 = Except.ok (p2, cur, al))
    (hne : sA.currentState = none → sA.movePreviewAway = true →
        env.sqrt ((cur.x - p2.x) * (cur.x - p2.x) +
          (cur.y - p2.y) * (cur.y - p2.y)) ≠ 0) :
    jsOk (mmGesture env sA me p1 f) = true ∧
    (jsState (mmGesture env sA me p1 f)).shape.map PShape.points =
      some (some p2 ::
        ((match sA.waypoints with
          | some ws => ws.map some
          | none => []) ++
         [some (if sA.currentState = none ∧ sA.movePreviewAway = true then
                  mpaShift env p2 cur
                else cur)])) ∧
    (jsState (mmGesture env sA me p1 f)).shape.map PShape.redrawCount =
      some (sh.redrawCount + 1) ∧
    (jsState (mmGesture env sA me p1 f)).shape.map PShape.stroke =
      some (getEdgeColor sA.error.isNone) ∧
    (jsState (mmGesture env sA me p1 f)).shape.map PShape.strokeWidth =
      some (getEdgeWidth sA.error.isNone) := by
  simp only [mmGesture]
  rw [hend]
  simp only [Except.map, hedge]
  by_cases hc : sA.currentState = none
  · by_cases hm : sA.movePreviewAway = true
    · have hl := hne hc hm
      cases al <;>
        simp [mmMovePreview, mmLazyShape, mmUpdateShape, drawPreviewFn,
          updatePreviewFn, mpaShift, jsOk, jsState, hedge, hshape, hc, hm,
          hl]
    · have hm' : sA.movePreviewAway = false := by simpa using hm
      simp [mmMovePreview, mmLazyShape, mmUpdateShape, drawPreviewFn,
        updatePreviewFn, jsOk, jsState, hedge, hshape, hc, hm']
  · obtain ⟨cs, hcs⟩ := Option.ne_none_iff_exists'.mp hc
    simp [mmMovePreview, mmLazyShape, mmUpdateShape, drawPreviewFn,
      updatePreviewFn, jsOk, jsState, hedge, hshape, hcs]

/-- C5 (amended): for every non-consumed mouse move during an active
gesture (`first != null`) with a preview shape present and no edge state,
whenever execution reaches the preview update — grid snapping disabled for
the event, `snapToPreview` and the endpoint computation returning normally
instead of throwing the broken-constructor `TypeError`, and no
move-preview-away zero-length early return — the preview shape's point
list is set to exactly `[pt2] ++ waypoints ++ [current]` (waypoints
omitted when null; `current` carrying the move-preview-away adjustment
when active) and the shape is redrawn via `drawPreview` with the colour
and width for the current validity. -/
theorem mouseMove_preview_points (env : Env) (s : HState) (me : MEvent)
    (f p1 : Point) (sh : PShape) (u : UCSOut) (p2 cur : Point) (al : Bool)
    (hcons : me.consumed = false)
    (hfirst : s.first = some f)
    (hshape : s.shape = some sh)
    (hedge : s.edgeState = none)
    (hgrid : env.gridEnabledEvent me = false)
    (hsnap : ∀ t : HState, t.previous = s.previous →
      t.sourceConstraint = s.sourceConstraint → t.first = s.first →
      snapToPreviewFn env t me { x := me.graphX, y := me.graphY } =
        Except.ok p1)
    (hucs : ∀ a b c, env.updateCurrentState a b c = Except.ok u)
    (hend : ∀ t tsel : HState, t.currentState = u.currentState →
      t.constraintHandler = u.constraintHandler → t.waypoints = s.waypoints →
      t.previous = s.previous → t.edgeState = s.edgeState →
      t.sourceConstraint = s.sourceConstraint →
      tsel.constraintHandler = u.constraintHandler →
      tsel.previous = s.previous →
      mmEndpointsNoEdge env t f (mmSelectCurrent env tsel me p1).2.2.1
        (mmSelectCurrent env tsel me p1).2.2.2 = Except.ok (p2, cur, al))
    (hne : u.currentState = none → s.movePreviewAway = true →
        env.sqrt ((cur.x - p2.x) * (cur.x - p2.x) +
          (cur.y - p2.y) * (cur.y - p2.y)) ≠ 0) :
    jsOk (mouseMoveFn env s me) = true ∧
    (jsState (mouseMoveFn env s me)).shape.map PShape.points =
      some (some p2 ::
        ((match s.waypoints with
          | some ws => ws.map some
          | none => []) ++
         [some (if u.currentState = none ∧ s.movePreviewAway = true then
                  mpaShift env p2 cur
                else cur)])) ∧
    (jsState (mouseMoveFn env s me)).shape.map PShape.redrawCount =
      some (sh.redrawCount + 1) ∧
    (jsState (mouseMoveFn env s me)).shape.map PShape.stroke =
      some (getEdgeColor u.error.isNone) ∧
    (jsState (mouseMoveFn env s me)).shape.map PShape.strokeWidth =
      some (getEdgeWidth u.error.isNone) := by
  obtain ⟨dPrev, dSc, dFirst, dWp, dEdge, dShape, dCh, dMpa, dIgn, dEn⟩ :=
    mmDisabledCleanup_fields s
  -- the state entering the gesture branch
  set sR : HState :=
    applyUCS u
      { mmDisabledCleanup s with
        error := none, currentPoint := some p1 } with hsR
  have hRprev : sR.previous = s.previous := by simp [hsR, applyUCS, dPrev]
  have hRsc : sR.sourceConstraint = s.sourceConstraint := by
    simp [hsR, applyUCS, dSc]
  have hRfirst : sR.first = s.first := by simp [hsR, applyUCS, dFirst]
  have hRwp : sR.waypoints = s.waypoints := by simp [hsR, applyUCS, dWp]
  have hRedge : sR.edgeState = s.edgeState := by simp [hsR, applyUCS, dEdge]
  have hRshape : sR.shape = s.shape := by simp [hsR, applyUCS, dShape]
  have hRch : sR.constraintHandler = u.constraintHandler := by
    simp [hsR, applyUCS]
  have hRcs : sR.currentState = u.currentState := by simp [hsR, applyUCS]
  have hRmpa : sR.movePreviewAway = s.movePreviewAway := by
    simp [hsR, applyUCS, dMpa]
  have hRerr : sR.error = u.error := by simp [hsR, applyUCS]
  have hendR : mmEndpointsNoEdge env
      { sR with currentPoint := some (mmSelectCurrent env sR me p1).2.1 } f
      (mmSelectCurrent env sR me p1).2.2.1
      (mmSelectCurrent env sR me p1).2.2.2 = Except.ok (p2, cur, al) :=
    hend { sR with currentPoint := some (mmSelectCurrent env sR me p1).2.1 }
      sR hRcs hRch hRwp hRprev hRedge hRsc hRch hRprev
  have hG := mmGesture_noEdge_spec env sR me p1 f sh p2 cur al
    (by rw [hRshape, hshape]) (by rw [hRedge, hedge]) hendR
    (by rw [hRcs, hRmpa]; exact hne)
  -- reduce mouseMove to the gesture branch on sR
  have hmm : mouseMoveFn env s me = mmGesture env sR me p1 f := by
    rw [hsR]
    simp only [mouseMoveFn, hcons, hgrid, hsnap, hucs, dPrev, dSc, dFirst,
      dShape, hfirst, hshape, applyUCS, Except.map, Option.isSome_some,
      Bool.not_false, Bool.true_and, Bool.true_or, Bool.or_true,
      Bool.false_eq_true, if_true, if_false, ite_true, ite_false]
  rw [← hmm] at hG
  simp only [hRwp, hRcs, hRmpa, hRerr] at hG
  exact hG

/-- The `updateCurrentState` outcome produced by `envDefault`. -/
def ucs0 : UCSOut :=
  { error := none, currentState := none, constraintHandler := chReset,
    markerValidState := none }

/-- C5 witness: the amended statement at a concrete gesture (both
coordinates within the snap tolerance). -/
theorem mouseMove_preview_points_witness :
    jsOk (mouseMoveFn envDefault hGest meUp) = true ∧
    (jsState (mouseMoveFn envDefault hGest meUp)).shape.map PShape.points =
      some [some { x := 0, y := 0 }, some { x := 0, y := 0 }] ∧
    (jsState (mouseMoveFn envDefault hGest meUp)).shape.map
      PShape.redrawCount = some 1 := by
  obtain ⟨h1, h2, h3, h4, h5⟩ :=
    mouseMove_preview_points envDefault hGest meUp { x := 0, y := 0 }
      { x := 0, y := 0 } shape0 ucs0 { x := 0, y := 0 } { x := 0, y := 0 }
      true rfl rfl rfl rfl rfl
      (by
        intro t ht1 ht2 ht3
        rw [snapToPreviewFn_congr envDefault hGest t meUp
          { x := meUp.graphX, y := meUp.graphY } ht1 ht2 ht3]
        norm_num [snapToPreviewFn, hGest, hInit, envDefault, meUp, cc0])
      (fun _ _ _ => rfl)
      (by
        intro t tsel ht1 ht2 ht3 ht4 ht5 ht6 ht7 ht8
        simp [mmEndpointsNoEdge, mmSelectCurrent, getTargetPerimeterPointFn,
          ht1, ht2, ht3, ht4, ht5, ht6, ht7, ht8, ucs0, chReset, hGest,
          hInit, envDefault, meUp, Except.bind, bind])
      (by intro _ hmp; simp [hGest, hInit] at hmp)
  refine ⟨h1, ?_, ?_⟩
  · rw [h2]
    simp [hGest, hInit, ucs0]
  · rw [h3]
    rfl

end MxGraph
